import Mathlib

/-!
Verification of `tensorflow/lite/delegates/gpu/metal/kernels/conv.cc`:
the Metal GPU convolution kernel compiler (parameter selection heuristics,
weight-layout reordering, dispatch sizing, and the structure of the
generated kernel text).

The definitions below are a shallow embedding of the functions of that
translation unit.  Machine `int` values that are only ever non-negative
(shape extents, block sizes, grid counts) are embedded as `Nat`.  Emitted
shader text is embedded as a list of `Frag` values, one per emitted
statement, carrying every parameter that varies in the emitted text.
-/

namespace ConvMetal

/-- Modelled from the spec: `DivideRoundUp` of `common/util.h` (not under
`src/`), described in the spec as ceiling division `ceil(a/b)`. -/
def divideRoundUp (n d : Nat) : Nat := (n + d - 1) / d

/-- Modelled from the spec: `AlignByN` of `common/util.h` (not under
`src/`), rounding `v` up to a multiple of `n`. -/
def alignByN (v n : Nat) : Nat := divideRoundUp v n * n

/-- Embeds the C++ `int3` with non-negative components. -/
structure Int3 where
  x : Nat
  y : Nat
  z : Nat
deriving DecidableEq, Repr

/-- `int3` component read `v[n]` (components x, y, z at indices 0, 1, 2). -/
def Int3.get (v : Int3) (n : Nat) : Nat :=
  match n with
  | 0 => v.x
  | 1 => v.y
  | 2 => v.z
  | _ => 0

/-- `int3` component write `v[n] = a`. -/
def Int3.set (v : Int3) (n a : Nat) : Int3 :=
  match n with
  | 0 => { v with x := a }
  | 1 => { v with y := a }
  | 2 => { v with z := a }
  | _ => v

/-- Embeds `tflite::gpu::BHWC` (batch, height, width, channels). -/
structure BHWC where
  b : Nat
  h : Nat
  w : Nat
  c : Nat
deriving DecidableEq, Repr

/-- Embeds the OHWI shape of a weight tensor
(`weights.shape.{o,h,w,i}`). -/
structure OHWIShape where
  o : Nat
  h : Nat
  w : Nat
  i : Nat
deriving DecidableEq, Repr

/-- Modelled from the spec: the canonical linear index of the external
OHWI tensor layout (`common/shape.h`, not under `src/`): the tensor is
"logically indexed [output-channel, kernel-row, kernel-col,
input-channel]" in row-major order. -/
def ohwiLinearIndex (sh : OHWIShape) (o y x i : Nat) : Nat :=
  ((o * sh.h + y) * sh.w + x) * sh.i + i

/-- Embeds the HW component pair used for strides / dilations / padding
sides (`attr.strides.w`, `attr.strides.h`, ...). -/
structure HW where
  h : Nat
  w : Nat
deriving DecidableEq, Repr

/-- Embeds the two padding sides of `Padding2D`. -/
structure Padding2D where
  prepended : HW
  appended : HW
deriving DecidableEq, Repr

/-- Embeds the fields of `Convolution2DAttributes` read by `conv.cc`
(the weight data is carried separately where needed). -/
structure Convolution2DAttributes where
  weights_shape : OHWIShape
  strides : HW
  dilations : HW
  padding : Padding2D
deriving DecidableEq, Repr

/-- Embeds `CalculationsPrecision`. -/
inductive CalculationsPrecision
  | F32
  | F16
  | F32_F16
deriving DecidableEq, Repr

/-- Modelled from the spec: the `AppleInfo` capability record of
`common/gpu_info.h` (not under `src/`): a read-only device-capability
input of the selector ("prefers local memory over global", "is a
high-end (Bionic) variant", compute-unit count). -/
structure AppleInfo where
  localMemoryPreferredOverGlobal : Bool
  bionic : Bool
  computeUnitsCount : Nat
deriving DecidableEq, Repr

/-- Modelled from the spec: the vendor family selectors of `GpuInfo`
(`IsApple` / `IsIntel` / `IsAMD`, with everything else falling to the
default branch). -/
inductive GpuVendor
  | apple
  | intel
  | amd
  | other
deriving DecidableEq, Repr

/-- Modelled from the spec: the `GpuInfo` device record of
`common/gpu_info.h` (not under `src/`): vendor family plus the Apple
capability sub-record. -/
structure GpuInfo where
  vendor : GpuVendor
  apple_info : AppleInfo
deriving DecidableEq, Repr

/-- Embeds `enum class WeightsUploadType`. -/
inductive WeightsUploadType
  | privateMemSimd8Broadcast
  | privateMemSimd16Broadcast
  | privateMemSimd32Broadcast
  | localMemByThreads
  | globalMem
  | constantMem
deriving DecidableEq, Repr

/-- Embeds `enum class WeightsInnerBlockLayout`. -/
inductive WeightsInnerBlockLayout
  | O4I4
  | I4O4
deriving DecidableEq, Repr

/-- Embeds `struct ConvParams`. -/
structure ConvParams where
  block_size : Int3
  work_group_size : Int3
  work_group_launch_order : Int3
  src_depth_loop_size : Nat
  need_src_loop : Bool
  need_dst_loop : Bool
  linear_wh : Bool
  linear_whs : Bool
  weights_upload_type : WeightsUploadType
  weight_layout : WeightsInnerBlockLayout
  different_weights_for_height : Bool
  x_kernel_is_1 : Bool
  y_kernel_is_1 : Bool
deriving DecidableEq, Repr

/-! ### GridMath -/

/-- Embeds `GetGroupsCount` (3-D work-group count). -/
def GetGroupsCount (dst : BHWC) (wg block : Int3) : Nat :=
  let dst_slices := divideRoundUp dst.c 4
  let grid_x := divideRoundUp dst.w block.x
  let grid_y := divideRoundUp dst.h block.y
  let grid_z := divideRoundUp dst_slices block.z
  divideRoundUp grid_x wg.x * divideRoundUp grid_y wg.y *
    divideRoundUp grid_z wg.z

/-- Embeds `GetGroupsCountForLinearWH`. -/
def GetGroupsCountForLinearWH (dst : BHWC) (wg block : Int3) : Nat :=
  let dst_slices := divideRoundUp dst.c 4
  let grid_x := divideRoundUp dst.w block.x
  let grid_y := divideRoundUp dst.h block.y
  let grid_z := divideRoundUp dst_slices block.z
  divideRoundUp (grid_x * grid_y) wg.x * divideRoundUp grid_z wg.y

/-- Embeds `GetGroupsCountForLinearWHS`. -/
def GetGroupsCountForLinearWHS (dst : BHWC) (wg block : Int3) : Nat :=
  let dst_slices := divideRoundUp dst.c 4
  let grid_x := divideRoundUp dst.w block.x
  let grid_y := divideRoundUp dst.h block.y
  let grid_z := divideRoundUp dst_slices block.z
  divideRoundUp (grid_x * grid_y * grid_z) wg.x

/-! ### KernelShapeClassifier -/

/-- Embeds `IsKernelXIs1`. -/
def IsKernelXIs1 (attr : Convolution2DAttributes) : Bool :=
  attr.weights_shape.w == 1 && attr.strides.w == 1 &&
    attr.dilations.w == 1 && attr.padding.prepended.w == 0 &&
    attr.padding.appended.w == 0

/-- Embeds `IsKernelYIs1`. -/
def IsKernelYIs1 (attr : Convolution2DAttributes) : Bool :=
  attr.weights_shape.h == 1 && attr.strides.h == 1 &&
    attr.dilations.h == 1 && attr.padding.prepended.h == 0 &&
    attr.padding.appended.h == 0

/-! ### ParameterSelector -/

/-- Embeds `GetMaximumPossibleWavesCount`. -/
def GetMaximumPossibleWavesCount (ai : AppleInfo) (dst : BHWC) : Nat :=
  if ai.localMemoryPreferredOverGlobal then
    GetGroupsCountForLinearWH dst ⟨32, 1, 1⟩ ⟨1, 1, 1⟩
  else
    GetGroupsCountForLinearWHS dst ⟨32, 1, 1⟩ ⟨1, 1, 1⟩

/-- Embeds `GetRecommendedBlockSize`. -/
def GetRecommendedBlockSize (ai : AppleInfo) (dst : BHWC) : Nat :=
  let max_waves := GetMaximumPossibleWavesCount ai dst
  let cu_count := ai.computeUnitsCount
  if cu_count * 64 ≤ max_waves then 8
  else if cu_count * 32 ≤ max_waves then 4
  else if cu_count * 16 ≤ max_waves then 2
  else 1

/-- Embeds `use_filters_constants` of `GenerateConvolution` (lines
228-230), which is textually repeated inside `GetConvParamsForA7A8` and
`GetConvParamsForA9AndHigher`. -/
def UseFiltersConstants (p : ConvParams) : Bool :=
  !p.need_dst_loop && !p.need_src_loop && p.x_kernel_is_1 && p.y_kernel_is_1

/-- Embeds the shared tail of `GetConvParamsForA7A8` and
`GetConvParamsForA9AndHigher` (their last three `if` statements): clear
`need_src_loop` / `need_dst_loop` when the static unroll covers the whole
range, then switch to constant-memory weights when the
`use_filters_constants` condition holds. -/
def finalizeAppleConvParams (src_slices dst_slices : Nat) (p : ConvParams) :
    ConvParams :=
  let p1 := if p.src_depth_loop_size = src_slices then
    { p with need_src_loop := false } else p
  let p2 := if p1.block_size.z = dst_slices then
    { p1 with need_dst_loop := false } else p1
  if UseFiltersConstants p2 then
    { p2 with weights_upload_type := .constantMem }
  else p2

/-- Embeds the `block_size.z` selection of `GetConvParamsForA7A8`
(lines 699-705). -/
def a7a8BlockZ (blk dst_slices : Nat) : Nat :=
  if 4 ≤ blk ∧ (dst_slices % 4 = 0 ∨ 16 ≤ dst_slices) then 4
  else if 2 ≤ blk ∧ (dst_slices % 2 = 0 ∨ 4 ≤ dst_slices) then 2
  else 1

/-- Embeds the spatial block selection of `GetConvParamsForA7A8`
(lines 706-717), applied to the budget left after the z selection. -/
def a7a8BlockXY (blk w h : Nat) : Nat × Nat :=
  if 4 ≤ blk then (2, 2)
  else if 2 ≤ blk then
    (if w % 2 ≠ 0 ∧ h % 2 = 0 then (1, 2) else (2, 1))
  else (1, 1)

/-- Embeds the body of `GetConvParamsForA7A8` up to (but excluding) the
final `need_src_loop`/`need_dst_loop`/constant-memory tail, rendering the
C++ mutation sequence in final-value (SSA) form.  The float comparison
`g2/g3 > 3.1f` is modelled exactly as the rational comparison
`g2/g3 > 31/10`. -/
def a7a8Core (ai : AppleInfo) (attr : Convolution2DAttributes)
    (dst : BHWC) : ConvParams :=
  let dst_slices := divideRoundUp dst.c 4
  let blk0 := GetRecommendedBlockSize ai dst
  let bz := a7a8BlockZ blk0 dst_slices
  let bxy := a7a8BlockXY (blk0 / bz) dst.w dst.h
  let block_size : Int3 := ⟨bxy.1, bxy.2, bz⟩
  let wg0 : Int3 := if bxy.1 ≤ bxy.2 then ⟨8, 4, 1⟩ else ⟨4, 8, 1⟩
  let g1 := GetGroupsCount dst wg0 block_size
  let g2 := GetGroupsCountForLinearWH dst ⟨32, 1, 1⟩ block_size
  let g3 := GetGroupsCountForLinearWHS dst ⟨32, 1, 1⟩ block_size
  let wh : Bool := decide (g2 < g1)
  let whs : Bool := decide (31 * g3 < 10 * g2)
  { block_size := block_size
    work_group_size := if whs then ⟨32, 1, 1⟩ else if wh then ⟨32, 1, 1⟩ else wg0
    work_group_launch_order := ⟨0, 1, 2⟩
    src_depth_loop_size := 1
    need_src_loop := true
    need_dst_loop := true
    linear_wh := wh && !whs
    linear_whs := whs
    weights_upload_type := if whs then .globalMem else .localMemByThreads
    weight_layout := .O4I4
    different_weights_for_height := false
    x_kernel_is_1 := IsKernelXIs1 attr
    y_kernel_is_1 := IsKernelYIs1 attr }

/-- Embeds `GetConvParamsForA7A8`. -/
def GetConvParamsForA7A8 (ai : AppleInfo) (attr : Convolution2DAttributes)
    (dst : BHWC) : ConvParams :=
  finalizeAppleConvParams (divideRoundUp attr.weights_shape.i 4)
    (divideRoundUp dst.c 4) (a7a8Core ai attr dst)

/-- Embeds the spatial block selection of `GetConvParamsForA9AndHigher`
(lines 764-771): 2x spatial tiling on Bionic variants, on the axis with
the odd output extent. -/
def a9BlockXY (blk : Nat) (bionic : Bool) (w h : Nat) : Nat × Nat :=
  if 2 ≤ blk ∧ bionic = true then
    (if h % 2 ≠ 0 ∧ w % 2 = 0 then (2, 1) else (1, 2))
  else (1, 1)

/-- Embeds the `block_size.z` selection of `GetConvParamsForA9AndHigher`
(lines 772-782), including the `dst_slices == 3` special case which is
gated on the budget left after the first z selection. -/
def a9BlockZ (blk dst_slices : Nat) : Nat :=
  let z0 := if 4 ≤ blk ∧ (dst_slices % 4 = 0 ∨ 16 ≤ dst_slices) then 4
    else if 2 ≤ blk ∧ (dst_slices % 2 = 0 ∨ 4 ≤ dst_slices) then 2
    else 1
  if 4 ≤ blk / z0 ∧ dst_slices = 3 then 3 else z0

/-- Embeds the `src_depth_loop_size` selection of
`GetConvParamsForA9AndHigher` (lines 810-822). -/
def a9SrcDepthLoopSize (total_elements src_slices : Nat) : Nat :=
  if total_elements = 1 then
    (if src_slices % 4 = 0 then 4
     else if src_slices % 2 = 0 then 2
     else 1)
  else if total_elements = 2 then
    (if src_slices % 2 = 0 then 2 else 1)
  else 1

/-- Embeds the body of `GetConvParamsForA9AndHigher` up to (but
excluding) the shared final tail, in final-value form.  The float
comparison against the threshold `1.0f` / `1.04f` is modelled exactly as
a rational comparison. -/
def a9Core (ai : AppleInfo) (attr : Convolution2DAttributes)
    (dst : BHWC) : ConvParams :=
  let dst_slices := divideRoundUp dst.c 4
  let src_slices := divideRoundUp attr.weights_shape.i 4
  let blk0 := GetRecommendedBlockSize ai dst
  let bxy := a9BlockXY blk0 ai.bionic dst.w dst.h
  let blk1 := if 2 ≤ blk0 ∧ ai.bionic = true then blk0 / 2 else blk0
  let bz := a9BlockZ blk1 dst_slices
  let block_size : Int3 := ⟨bxy.1, bxy.2, bz⟩
  let g1 := GetGroupsCount dst ⟨8, 4, 1⟩ block_size
  let g2 := GetGroupsCountForLinearWH dst ⟨32, 1, 1⟩ block_size
  let g3 := GetGroupsCountForLinearWHS dst ⟨32, 1, 1⟩ block_size
  let wh : Bool := decide (g2 < g1)
  let whs : Bool :=
    if ai.bionic then decide (g3 < g2) else decide (104 * g3 < 100 * g2)
  let total_elements := block_size.x * block_size.y * block_size.z
  { block_size := block_size
    work_group_size := if whs then ⟨32, 1, 1⟩ else if wh then ⟨32, 1, 1⟩
      else ⟨8, 4, 1⟩
    work_group_launch_order := if wh then ⟨0, 1, 2⟩ else ⟨2, 0, 1⟩
    src_depth_loop_size := a9SrcDepthLoopSize total_elements src_slices
    need_src_loop := true
    need_dst_loop := true
    linear_wh := wh && !whs
    linear_whs := whs
    weights_upload_type := .globalMem
    weight_layout := .O4I4
    different_weights_for_height := false
    x_kernel_is_1 := IsKernelXIs1 attr
    y_kernel_is_1 := IsKernelYIs1 attr }

/-- Embeds `GetConvParamsForA9AndHigher`. -/
def GetConvParamsForA9AndHigher (ai : AppleInfo)
    (attr : Convolution2DAttributes) (dst : BHWC) : ConvParams :=
  finalizeAppleConvParams (divideRoundUp attr.weights_shape.i 4)
    (divideRoundUp dst.c 4) (a9Core ai attr dst)

/-- Embeds `GetConvParamsForIntel`, in final-value form.  Note: this
selector has no constant-memory tail in the source. -/
def GetConvParamsForIntel (attr : Convolution2DAttributes)
    (precision : CalculationsPrecision) (dst : BHWC) : ConvParams :=
  let dst_slices := divideRoundUp dst.c 4
  let src_slices := divideRoundUp attr.weights_shape.i 4
  let bz := if dst_slices % 4 = 0 ∨ 8 ≤ dst_slices then 4
    else if dst_slices % 2 = 0 ∨ 4 ≤ dst_slices then 2
    else 1
  let block_size : Int3 := ⟨1, 1, bz⟩
  let g1 := GetGroupsCount dst ⟨8, 2, 1⟩ block_size
  let g2 := GetGroupsCountForLinearWH dst ⟨16, 1, 1⟩ block_size
  let wh : Bool := decide (g2 < g1)
  { block_size := block_size
    work_group_size := if wh then ⟨16, 1, 1⟩ else ⟨8, 2, 1⟩
    work_group_launch_order := if wh then ⟨1, 0, 2⟩ else ⟨2, 0, 1⟩
    src_depth_loop_size := if src_slices % 2 = 0 then 2 else 1
    need_src_loop := true
    need_dst_loop := true
    linear_wh := wh
    linear_whs := false
    weights_upload_type := .privateMemSimd8Broadcast
    weight_layout := if precision = .F32_F16 then .O4I4 else .I4O4
    different_weights_for_height := false
    x_kernel_is_1 := IsKernelXIs1 attr
    y_kernel_is_1 := IsKernelYIs1 attr }

/-- Embeds `GetConvParamsForAMD`. -/
def GetConvParamsForAMD (attr : Convolution2DAttributes)
    (precision : CalculationsPrecision) (dst : BHWC) : ConvParams :=
  { block_size := ⟨1, 1, 4⟩
    work_group_size := ⟨8, 4, 1⟩
    work_group_launch_order := ⟨2, 0, 1⟩
    src_depth_loop_size := 1
    need_src_loop := true
    need_dst_loop := true
    linear_wh := false
    linear_whs := false
    weights_upload_type := .globalMem
    weight_layout := if precision = .F32_F16 then .O4I4 else .I4O4
    different_weights_for_height := false
    x_kernel_is_1 := IsKernelXIs1 attr
    y_kernel_is_1 := IsKernelYIs1 attr }

/-- Embeds `GetConvParams` (family dispatch, with the default branch for
unrecognized vendors written out as in the source). -/
def GetConvParams (gpu : GpuInfo) (attr : Convolution2DAttributes)
    (precision : CalculationsPrecision) (dst : BHWC) : ConvParams :=
  match gpu.vendor with
  | .apple =>
    if gpu.apple_info.localMemoryPreferredOverGlobal then
      GetConvParamsForA7A8 gpu.apple_info attr dst
    else
      GetConvParamsForA9AndHigher gpu.apple_info attr dst
  | .intel => GetConvParamsForIntel attr precision dst
  | .amd => GetConvParamsForAMD attr precision dst
  | .other =>
    { block_size := ⟨1, 1, 4⟩
      work_group_size := ⟨8, 4, 1⟩
      work_group_launch_order := ⟨2, 0, 1⟩
      src_depth_loop_size := 1
      need_src_loop := true
      need_dst_loop := true
      linear_wh := false
      linear_whs := false
      weights_upload_type := .globalMem
      weight_layout := .O4I4
      different_weights_for_height := false
      x_kernel_is_1 := IsKernelXIs1 attr
      y_kernel_is_1 := IsKernelYIs1 attr }

/-! ### Dispatch sizing -/

/-- Embeds `GetDispatchSizes`, returning (work-group size, group count).
In the `linear_wh` branch the C++ leaves `wg.z` uninitialized and never
reads it for the launch orders the selectors produce; the model fixes it
to 0. -/
def GetDispatchSizes (p : ConvParams) (shape : BHWC) : Int3 × Int3 :=
  let dst_slices := divideRoundUp shape.c 4
  let grid_x := divideRoundUp shape.w p.block_size.x
  let grid_y := divideRoundUp shape.h p.block_size.y
  let grid_z := divideRoundUp dst_slices p.block_size.z
  let group_size := p.work_group_size
  if p.linear_whs then
    (group_size,
      ⟨divideRoundUp (grid_x * grid_y * grid_z) p.work_group_size.x, 1, 1⟩)
  else if p.linear_wh then
    let wg : Int3 := ⟨divideRoundUp (grid_x * grid_y) p.work_group_size.x,
      divideRoundUp grid_z p.work_group_size.y, 0⟩
    (group_size, ⟨wg.get p.work_group_launch_order.x,
      wg.get p.work_group_launch_order.y, 1⟩)
  else
    let wg : Int3 := ⟨divideRoundUp grid_x p.work_group_size.x,
      divideRoundUp grid_y p.work_group_size.y,
      divideRoundUp grid_z p.work_group_size.z⟩
    (group_size, ⟨wg.get p.work_group_launch_order.x,
      wg.get p.work_group_launch_order.y,
      wg.get p.work_group_launch_order.z⟩)

/-! ### WeightLayoutTransform (`ReorderWeightsForConv`) -/

/-- The source channel read in one inner iteration of
`ReorderWeightsForConv` (lines 583-591). -/
def reorderSrcCh (isO4I4 : Bool) (s j i : Nat) : Nat :=
  if isO4I4 then s * 4 + i else s * 4 + j

/-- The destination channel read in one inner iteration of
`ReorderWeightsForConv` (lines 583-591). -/
def reorderDstCh (isO4I4 : Bool) (bz d k j i : Nat) : Nat :=
  if isO4I4 then (d * bz + k) * 4 + j else (d * bz + k) * 4 + i

/-- One element emitted by the innermost loop body of
`ReorderWeightsForConv` (lines 583-599): `0` for channel pairs outside
the tensor extents, otherwise the weight read through the OHWI linear
index. -/
def reorderElem [Zero α] (data : Nat → α) (sh : OHWIShape) (isO4I4 : Bool)
    (bz d y x s k j i : Nat) : α :=
  let src_ch := reorderSrcCh isO4I4 s j i
  let dst_ch := reorderDstCh isO4I4 bz d k j i
  if sh.i ≤ src_ch ∨ sh.o ≤ dst_ch then 0
  else data (ohwiLinearIndex sh dst_ch y x src_ch)

/-- The `i` loop of `ReorderWeightsForConv` (innermost). -/
def reorderRowJ [Zero α] (data : Nat → α) (sh : OHWIShape) (isO4I4 : Bool)
    (bz d y x s k j : Nat) : List α :=
  (List.range 4).map fun i => reorderElem data sh isO4I4 bz d y x s k j i

/-- The `j` loop of `ReorderWeightsForConv`. -/
def reorderRowK [Zero α] (data : Nat → α) (sh : OHWIShape) (isO4I4 : Bool)
    (bz d y x s k : Nat) : List α :=
  (List.range 4).flatMap fun j => reorderRowJ data sh isO4I4 bz d y x s k j

/-- The `k` loop of `ReorderWeightsForConv` (over `block_size.z`). -/
def reorderRowS [Zero α] (data : Nat → α) (sh : OHWIShape) (isO4I4 : Bool)
    (bz d y x s : Nat) : List α :=
  (List.range bz).flatMap fun k => reorderRowK data sh isO4I4 bz d y x s k

/-- The `s` loop of `ReorderWeightsForConv` (over input channel
groups). -/
def reorderRowX [Zero α] (data : Nat → α) (sh : OHWIShape) (isO4I4 : Bool)
    (bz d y x : Nat) : List α :=
  (List.range (divideRoundUp sh.i 4)).flatMap fun s =>
    reorderRowS data sh isO4I4 bz d y x s

/-- The `x` loop of `ReorderWeightsForConv` (over kernel columns). -/
def reorderRowY [Zero α] (data : Nat → α) (sh : OHWIShape) (isO4I4 : Bool)
    (bz d y : Nat) : List α :=
  (List.range sh.w).flatMap fun x => reorderRowX data sh isO4I4 bz d y x

/-- The `y` loop of `ReorderWeightsForConv` (over kernel rows). -/
def reorderRowD [Zero α] (data : Nat → α) (sh : OHWIShape) (isO4I4 : Bool)
    (bz d : Nat) : List α :=
  (List.range sh.h).flatMap fun y => reorderRowY data sh isO4I4 bz d y

/-- Embeds `ReorderWeightsForConv`: the flat output sequence produced by
the nested loops (`d` over channel-group tiles, then kernel row, kernel
column, input channel group, within-tile index, and the two 4-wide
channel axes).  The C++ preallocates
`w * h * AlignByN(dst_depth, block.z) * 4 * src_depth * 4` elements and
fills them in this exact order. -/
def ReorderWeightsForConv [Zero α] (data : Nat → α) (sh : OHWIShape)
    (p : ConvParams) : List α :=
  let dst_depth := divideRoundUp sh.o 4
  let bz := p.block_size.z
  let isO4I4 : Bool := p.weight_layout = .O4I4
  (List.range (divideRoundUp dst_depth bz)).flatMap fun d =>
    reorderRowD data sh isO4I4 bz d

/-- The flat output position written by `ReorderWeightsForConv` at loop
coordinates `(d, y, x, s, k, j, i)`: the running value of `counter`. -/
def reorderFlatIndex (sh : OHWIShape) (bz d y x s k j i : Nat) : Nat :=
  (((((d * sh.h + y) * sh.w + x) * divideRoundUp sh.i 4 + s) * bz + k)
    * 4 + j) * 4 + i

/-- The inverse of the reordering index map: the flat position in the
reordered output holding original weight element
`(dst_ch, y, x, src_ch)`. -/
def reorderInverseIndex (sh : OHWIShape) (p : ConvParams)
    (dst_ch y x src_ch : Nat) : Nat :=
  let bz := p.block_size.z
  let isO4I4 : Bool := p.weight_layout = .O4I4
  let d := dst_ch / 4 / bz
  let k := dst_ch / 4 % bz
  let s := src_ch / 4
  let j := if isO4I4 then dst_ch % 4 else src_ch % 4
  let i := if isO4I4 then src_ch % 4 else dst_ch % 4
  reorderFlatIndex sh bz d y x s k j i

/-! ### Winograd-specialized path (`ConvolutionWino4x4To6x6`) -/

/-- Embeds the `ConvParams` selection of `ConvolutionWino4x4To6x6`
(lines 1045-1081). -/
def WinoConvParams (gpu : GpuInfo) : ConvParams :=
  let base : ConvParams :=
    { block_size := ⟨2, 1, 4⟩
      work_group_size := ⟨32, 1, 1⟩
      work_group_launch_order := ⟨2, 0, 1⟩
      src_depth_loop_size := 1
      need_src_loop := true
      need_dst_loop := true
      linear_wh := false
      linear_whs := false
      weights_upload_type := .globalMem
      weight_layout := .I4O4
      different_weights_for_height := true
      x_kernel_is_1 := true
      y_kernel_is_1 := true }
  match gpu.vendor with
  | .apple =>
    if gpu.apple_info.localMemoryPreferredOverGlobal then
      { base with weight_layout := .O4I4
                  weights_upload_type := .localMemByThreads
                  work_group_size := ⟨32, 1, 1⟩
                  block_size := ⟨4, 1, 4⟩ }
    else
      { base with weight_layout := .O4I4
                  weights_upload_type := .globalMem
                  work_group_size := ⟨8, 4, 1⟩
                  block_size := ⟨4, 1, 4⟩ }
  | .intel =>
    { base with weight_layout := .I4O4
                weights_upload_type := .privateMemSimd8Broadcast
                work_group_size := ⟨16, 1, 1⟩
                block_size := ⟨1, 1, 4⟩ }
  | .amd => base
  | .other => base

/-- Embeds the `dummy_biases` buffer of `ConvolutionWino4x4To6x6`
(lines 1100-1101): `AlignByN(dst_slices, block_size.z) * 4` elements,
all `0.0f`. -/
def WinoDummyBiases (gpu : GpuInfo) (attr : Convolution2DAttributes) :
    List ℚ :=
  let dst_slices := divideRoundUp attr.weights_shape.o 4
  List.replicate (alignByN dst_slices (WinoConvParams gpu).block_size.z * 4)
    (0 : ℚ)

/-! ### KernelTextGenerator (`GenerateConvolution`)

The generator is a pure text transform; the embedding renders the
emitted shader source as a list of `Frag` values, one per emitted
statement (pure closing-brace lines are folded into the statement frags
of their construct), each carrying every datum that varies in the
emitted text. -/

/-- One emitted statement of the generated kernel source. -/
inductive Frag
  | header
  | simdIdParam
  | kernelOpen
  | idLinearWhsDecl
  | idZFromWhs (bz : Nat)
  | idWhFromWhs
  | idYFromWh (bY : Nat)
  | idXFromWh (bx : Nat)
  | idLinearWhGlobal
  | idLinearWhGroup (remapX : Nat)
  | idXGlobal (bx : Nat)
  | idXGroup (remapX bx : Nat)
  | idYGlobal (bY : Nat)
  | idYGroup (remapY bY : Nat)
  | idZGlobal (bz : Nat)
  | idZGroup (remapZ bz : Nat)
  | sliceZCheck
  | earlyXYCheck
  | accumInit (z y x : Nat)
  | tmpInitNoDstLoop (constantAddr : Bool)
  | tmpInitDiffWeights (constantAddr : Bool) (bz : Nat)
  | tmpInitNormal (constantAddr xk1 yk1 : Bool)
  | srcBaseX (x : Nat)
  | srcBaseY (y : Nat)
  | weightsCacheDecl (size : Nat)
  | yLoopOpen
  | coordYLoop (y : Nat)
  | coordYUnit (y : Nat)
  | xLoopOpen
  | coordXLoop (x : Nat)
  | coordXUnit (x : Nat)
  | mask (y x : Nat) (yk1 xk1 : Bool)
  | srcLoc (y x : Nat)
  | sInit
  | srcLoopOpen
  | barrierNone
  | uploadGroup (offset : Nat)
  | uploadReminder (rem offset : Nat)
  | barrierThreadgroup
  | simdLoad (i offset : Nat)
  | simdLoadRem (parts rem : Nat)
  | declareSrc (y x : Nat)
  | readSrc (y x : Nat) (masked : Bool)
  | srcLocAdvance (y x : Nat)
  | sInc
  | convAcc (z ch y x offset : Nat)
  | tmpAdvance (n : Nat)
  | srcLoopClose
  | xLoopClose
  | yLoopClose
  | lateXYCheck
  | dstAddress (y x : Nat)
  | biasLocInit
  | addBias (z y x : Nat)
  | storeZGuard (z : Nat)
  | store (z y x : Nat)
  | kernelClose

/-- `use_local_mem` of `GenerateConvolution` (lines 204-205). -/
def usesLocalMem (p : ConvParams) : Bool :=
  p.weights_upload_type == .localMemByThreads

/-- `use_simd_broadcast` of `GenerateConvolution` (lines 209-215). -/
def usesSimdBroadcast (p : ConvParams) : Bool :=
  p.weights_upload_type == .privateMemSimd8Broadcast ||
  p.weights_upload_type == .privateMemSimd16Broadcast ||
  p.weights_upload_type == .privateMemSimd32Broadcast

/-- `simd_size` of `GenerateConvolution` (lines 216-226). -/
def simdSize (p : ConvParams) : Nat :=
  match p.weights_upload_type with
  | .privateMemSimd8Broadcast => 8
  | .privateMemSimd16Broadcast => 16
  | .privateMemSimd32Broadcast => 32
  | _ => 1

/-- `local_mem_size` of `GenerateConvolution` (lines 206-207). -/
def localMemSize (p : ConvParams) : Nat :=
  p.block_size.z * 4 * p.src_depth_loop_size

/-- `late_xy_check` of `GenerateConvolution` (line 257): a deferred
post-loop width/height check is used because the staged-upload paths
need all work-group threads to participate. -/
def lateXYCheckNeeded (p : ConvParams) : Bool :=
  usesLocalMem p || usesSimdBroadcast p

/-- Embeds `GlobalIdsGen` applied as in `GenerateConvolution` (which
passes fixed id-variable names).  The `launch_remap` permutation is
built by the three indexed stores of the source; C++ leaves it
uninitialized before the stores, the model starts from zeroes. -/
def GlobalIdsGen (lo bs : Int3) (linear_wh linear_whs : Bool) : List Frag :=
  let remap := ((Int3.set ⟨0, 0, 0⟩ lo.x 0).set lo.y 1).set lo.z 2
  if linear_whs then
    [.idLinearWhsDecl, .idZFromWhs bs.z, .idWhFromWhs, .idYFromWh bs.y,
     .idXFromWh bs.x]
  else if linear_wh then
    (if lo.x = 0 then [Frag.idLinearWhGlobal]
     else [Frag.idLinearWhGroup remap.x]) ++
    [.idYFromWh bs.y, .idXFromWh bs.x] ++
    (if lo.y = 1 then [Frag.idZGlobal bs.z]
     else [Frag.idZGroup remap.y bs.z])
  else
    (if lo.x = 0 then [Frag.idXGlobal bs.x]
     else [Frag.idXGroup remap.x bs.x]) ++
    (if lo.y = 1 then [Frag.idYGlobal bs.y]
     else [Frag.idYGroup remap.y bs.y]) ++
    (if lo.z = 2 then [Frag.idZGlobal bs.z]
     else [Frag.idZGroup remap.z bs.z])

/-- Embeds `GenerateUploadByThreads` (cooperative copy into the local
weights cache, in `total_work_items`-sized strides plus a guarded
remainder store). -/
def GenerateUploadByThreads (total_work_items elements_to_upload : Nat) :
    List Frag :=
  let groups := elements_to_upload / total_work_items
  let reminder := elements_to_upload % total_work_items
  ((List.range groups).map fun i => Frag.uploadGroup (total_work_items * i))
    ++
    (if reminder ≠ 0 then
      [Frag.uploadReminder reminder (total_work_items * groups)]
     else [])

/-- The simd-parameter line (line 251-253). -/
def simdParamPart (p : ConvParams) : List Frag :=
  if usesSimdBroadcast p then [.simdIdParam] else []

/-- The early width/height exit (lines 258-261): emitted only when no
deferred check is used and the grid is not fully linearized. -/
def earlyPart (p : ConvParams) : List Frag :=
  if !lateXYCheckNeeded p && !p.linear_whs then [.earlyXYCheck] else []

/-- Accumulator zero-initialization (lines 262-271). -/
def accumSection (p : ConvParams) : List Frag :=
  (List.range p.block_size.z).flatMap fun z =>
    (List.range p.block_size.y).flatMap fun y =>
      (List.range p.block_size.x).map fun x => Frag.accumInit z y x

/-- Weight-pointer initialization (lines 285-306). -/
def tmpSection (p : ConvParams) : List Frag :=
  if UseFiltersConstants p then []
  else
    let constantAddr := p.weights_upload_type == .constantMem
    if !p.need_dst_loop then [.tmpInitNoDstLoop constantAddr]
    else if p.different_weights_for_height then
      [.tmpInitDiffWeights constantAddr p.block_size.z]
    else [.tmpInitNormal constantAddr p.x_kernel_is_1 p.y_kernel_is_1]

/-- Strided source-coordinate bases (lines 307-320), emitted only for
non-unit kernel axes. -/
def srcBaseSection (p : ConvParams) : List Frag :=
  (if p.x_kernel_is_1 then []
   else (List.range p.block_size.x).map fun x => Frag.srcBaseX x) ++
  (if p.y_kernel_is_1 then []
   else (List.range p.block_size.y).map fun y => Frag.srcBaseY y)

/-- The threadgroup weights cache declaration (lines 321-324). -/
def localDeclPart (p : ConvParams) : List Frag :=
  if usesLocalMem p then [.weightsCacheDecl (localMemSize p)] else []

/-- Y coordinate computation, with the kernel-axis do-loop opening when
the axis is not unit (lines 325-342). -/
def coordYSection (p : ConvParams) : List Frag :=
  if !p.y_kernel_is_1 then
    Frag.yLoopOpen :: ((List.range p.block_size.y).map fun y =>
      Frag.coordYLoop y)
  else (List.range p.block_size.y).map fun y => Frag.coordYUnit y

/-- X coordinate computation (lines 343-360). -/
def coordXSection (p : ConvParams) : List Frag :=
  if !p.x_kernel_is_1 then
    Frag.xLoopOpen :: ((List.range p.block_size.x).map fun x =>
      Frag.coordXLoop x)
  else (List.range p.block_size.x).map fun x => Frag.coordXUnit x

/-- Masked-load multiplier registers (lines 361-374): only when at
least one kernel axis is not unit. -/
def maskSection (p : ConvParams) : List Frag :=
  (List.range p.block_size.y).flatMap fun y =>
    (List.range p.block_size.x).flatMap fun x =>
      if !p.y_kernel_is_1 || !p.x_kernel_is_1 then
        [Frag.mask y x p.y_kernel_is_1 p.x_kernel_is_1]
      else []

/-- Source pointer setup (lines 375-384). -/
def srcLocSection (p : ConvParams) : List Frag :=
  (List.range p.block_size.y).flatMap fun y =>
    (List.range p.block_size.x).map fun x => Frag.srcLoc y x

/-- The weight staging inside the channel loop (lines 389-412): local
memory cooperative copy between barriers, or SIMD broadcast source
registers, or nothing for the direct-pointer paths. -/
def stageSection (p : ConvParams) : List Frag :=
  if usesLocalMem p then
    let total_work_items := p.work_group_size.x * p.work_group_size.y *
      p.work_group_size.z
    [Frag.barrierNone] ++
      GenerateUploadByThreads total_work_items (localMemSize p) ++
      [Frag.barrierThreadgroup]
  else if usesSimdBroadcast p then
    let parts := localMemSize p / simdSize p
    let reminder := localMemSize p % simdSize p
    ((List.range parts).map fun i => Frag.simdLoad i (i * simdSize p)) ++
      (if reminder ≠ 0 then [Frag.simdLoadRem parts reminder] else [])
  else []

/-- `declare_src()` (lines 413-420). -/
def declareSrcFrags (p : ConvParams) : List Frag :=
  (List.range p.block_size.y).flatMap fun y =>
    (List.range p.block_size.x).map fun x => Frag.declareSrc y x

/-- `read_src()` (lines 421-438): masked (or plain) loads followed by
slice-stride pointer advances. -/
def readSrcFrags (p : ConvParams) : List Frag :=
  ((List.range p.block_size.y).flatMap fun y =>
    (List.range p.block_size.x).map fun x =>
      Frag.readSrc y x (!p.y_kernel_is_1 || !p.x_kernel_is_1)) ++
  ((List.range p.block_size.y).flatMap fun y =>
    (List.range p.block_size.x).map fun x => Frag.srcLocAdvance y x)

/-- `conv_core(offset)` (lines 439-472): one accumulation statement per
(z-tile, output lane, spatial tile). -/
def convCoreFrags (p : ConvParams) (offset : Nat) : List Frag :=
  (List.range p.block_size.z).flatMap fun z =>
    (List.range 4).flatMap fun ch =>
      (List.range p.block_size.y).flatMap fun y =>
        (List.range p.block_size.x).map fun x =>
          Frag.convAcc z ch y x (z * 4 + ch + offset)

/-- The inner accumulation body (lines 473-481): first unrolled pass,
then `src_depth_loop_size - 1` further unrolled passes. -/
def bodySection (p : ConvParams) : List Frag :=
  declareSrcFrags p ++ readSrcFrags p ++ [Frag.sInc] ++ convCoreFrags p 0 ++
    ((List.range (p.src_depth_loop_size - 1)).flatMap fun i =>
      readSrcFrags p ++ convCoreFrags p ((i + 1) * p.block_size.z * 4) ++
        [Frag.sInc])

/-- The deferred width/height bounds check (lines 499-502). -/
def latePart (p : ConvParams) : List Frag :=
  if lateXYCheckNeeded p && !p.linear_whs then [.lateXYCheck] else []

/-- Destination address computation (lines 504-508). -/
def addrSection (p : ConvParams) : List Frag :=
  (List.range p.block_size.y).flatMap fun y =>
    (List.range p.block_size.x).map fun x => Frag.dstAddress y x

/-- Bias application (lines 510-524). -/
def biasSection (p : ConvParams) : List Frag :=
  (if p.need_dst_loop then [Frag.biasLocInit] else []) ++
    ((List.range p.block_size.y).flatMap fun y =>
      (List.range p.block_size.x).flatMap fun x =>
        (List.range p.block_size.z).map fun z => Frag.addBias z y x)

/-- Guarded output stores (lines 525-559). -/
def storeSection (p : ConvParams) : List Frag :=
  (List.range p.block_size.z).flatMap fun z =>
    Frag.storeZGuard z ::
      ((List.range p.block_size.y).flatMap fun y =>
        (List.range p.block_size.x).map fun x => Frag.store z y x)

/-- Embeds `GenerateConvolution`: the full emission sequence. -/
def GenerateConvolution (p : ConvParams) : List Frag :=
  [Frag.header] ++ simdParamPart p ++ [Frag.kernelOpen] ++
    GlobalIdsGen p.work_group_launch_order p.block_size p.linear_wh
      p.linear_whs ++
    [Frag.sliceZCheck] ++ earlyPart p ++ accumSection p ++ tmpSection p ++
    srcBaseSection p ++ localDeclPart p ++ coordYSection p ++
    coordXSection p ++ maskSection p ++ srcLocSection p ++ [Frag.sInit] ++
    (if p.need_src_loop then [Frag.srcLoopOpen] else []) ++
    stageSection p ++ bodySection p ++
    (if !UseFiltersConstants p then
      [Frag.tmpAdvance (p.block_size.z * 4 * p.src_depth_loop_size)]
     else []) ++
    (if p.need_src_loop then [Frag.srcLoopClose] else []) ++
    (if !p.x_kernel_is_1 then [Frag.xLoopClose] else []) ++
    (if !p.y_kernel_is_1 then [Frag.yLoopClose] else []) ++
    latePart p ++ addrSection p ++ biasSection p ++ storeSection p ++
    [Frag.kernelClose]

/-! ### Helper lemmas -/

theorem flatMap_const_length {α β : Type _} (f : β → List α) (m : Nat) :
    ∀ (l : List β), (∀ b ∈ l, (f b).length = m) →
      (l.flatMap f).length = l.length * m
  | [], _ => by simp
  | hd :: tl, h => by
    simp only [List.flatMap_cons, List.length_append, List.length_cons]
    rw [h hd (by simp),
      flatMap_const_length f m tl (fun b hb => h b (by simp [hb]))]
    ring

theorem flatMap_const_getElem {α β : Type _} (f : β → List α) (m : Nat) :
    ∀ (l : List β) (q r : Nat) (b : β), (∀ b ∈ l, (f b).length = m) →
      r < m → l[q]? = some b →
      (l.flatMap f)[q * m + r]? = (f b)[r]?
  | [], _, _, _, _, _, hb => by simp at hb
  | hd :: tl, 0, r, b, h, hr, hb => by
    have hb' : hd = b := by simpa using hb
    subst hb'
    have hlen : (f hd).length = m := h hd (by simp)
    rw [List.flatMap_cons, Nat.zero_mul, Nat.zero_add,
      List.getElem?_append]
    simp [hlen, hr]
  | hd :: tl, q + 1, r, b, h, hr, hb => by
    have hlen : (f hd).length = m := h hd (by simp)
    have harith : (q + 1) * m + r = (f hd).length + (q * m + r) := by
      rw [hlen]; ring
    rw [List.flatMap_cons, harith,
      List.getElem?_append_right (Nat.le_add_right _ _),
      Nat.add_sub_cancel_left]
    exact flatMap_const_getElem f m tl q r b
      (fun b hb => h b (by simp [hb])) hr (by simpa using hb)

theorem range_flatMap_length {α : Type _} (f : Nat → List α) (n m : Nat)
    (h : ∀ i, i < n → (f i).length = m) :
    ((List.range n).flatMap f).length = n * m := by
  rw [flatMap_const_length f m _ (fun b hb => h b (List.mem_range.mp hb)),
    List.length_range]

theorem range_flatMap_getElem {α : Type _} (f : Nat → List α)
    (n m q r : Nat) (h : ∀ i, i < n → (f i).length = m) (hq : q < n)
    (hr : r < m) : ((List.range n).flatMap f)[q * m + r]? = (f q)[r]? :=
  flatMap_const_getElem f m (List.range n) q r q
    (fun b hb => h b (List.mem_range.mp hb)) hr
    (by simp [List.getElem?_range hq])

theorem mul_add_lt {a A b B : Nat} (ha : a < A) (hb : b < B) :
    a * B + b < A * B :=
  calc a * B + b < a * B + B := by omega
    _ = (a + 1) * B := by ring
    _ ≤ A * B := Nat.mul_le_mul_right B ha

theorem div_lt_divideRoundUp {a n m : Nat} (ha : a < n) (hm : 0 < m) :
    a / m < divideRoundUp n m := by
  have h1 : a / m ≤ (n - 1) / m := Nat.div_le_div_right (by omega)
  have h2 : (n - 1 + m) / m = (n - 1) / m + 1 := Nat.add_div_right _ hm
  have h3 : n + m - 1 = n - 1 + m := by omega
  unfold divideRoundUp
  rw [h3, h2]
  omega

theorem reorderRowJ_length [Zero α] (data : Nat → α) (sh : OHWIShape)
    (isO4I4 : Bool) (bz d y x s k j : Nat) :
    (reorderRowJ data sh isO4I4 bz d y x s k j).length = 4 := by
  simp [reorderRowJ]

theorem reorderRowK_length [Zero α] (data : Nat → α) (sh : OHWIShape)
    (isO4I4 : Bool) (bz d y x s k : Nat) :
    (reorderRowK data sh isO4I4 bz d y x s k).length = 16 := by
  unfold reorderRowK
  rw [range_flatMap_length _ 4 4
    (fun j _ => reorderRowJ_length data sh isO4I4 bz d y x s k j)]

theorem reorderRowS_length [Zero α] (data : Nat → α) (sh : OHWIShape)
    (isO4I4 : Bool) (bz d y x s : Nat) :
    (reorderRowS data sh isO4I4 bz d y x s).length = bz * 16 := by
  unfold reorderRowS
  rw [range_flatMap_length _ bz 16
    (fun k _ => reorderRowK_length data sh isO4I4 bz d y x s k)]

theorem reorderRowX_length [Zero α] (data : Nat → α) (sh : OHWIShape)
    (isO4I4 : Bool) (bz d y x : Nat) :
    (reorderRowX data sh isO4I4 bz d y x).length =
      divideRoundUp sh.i 4 * (bz * 16) := by
  unfold reorderRowX
  rw [range_flatMap_length _ (divideRoundUp sh.i 4) (bz * 16)
    (fun s _ => reorderRowS_length data sh isO4I4 bz d y x s)]

theorem reorderRowY_length [Zero α] (data : Nat → α) (sh : OHWIShape)
    (isO4I4 : Bool) (bz d y : Nat) :
    (reorderRowY data sh isO4I4 bz d y).length =
      sh.w * (divideRoundUp sh.i 4 * (bz * 16)) := by
  unfold reorderRowY
  rw [range_flatMap_length _ sh.w (divideRoundUp sh.i 4 * (bz * 16))
    (fun x _ => reorderRowX_length data sh isO4I4 bz d y x)]

theorem reorderRowD_length [Zero α] (data : Nat → α) (sh : OHWIShape)
    (isO4I4 : Bool) (bz d : Nat) :
    (reorderRowD data sh isO4I4 bz d).length =
      sh.h * (sh.w * (divideRoundUp sh.i 4 * (bz * 16))) := by
  unfold reorderRowD
  rw [range_flatMap_length _ sh.h
    (sh.w * (divideRoundUp sh.i 4 * (bz * 16)))
    (fun y _ => reorderRowY_length data sh isO4I4 bz d y)]

/-- Positional characterization of the reordered output: the element at
flat position `reorderFlatIndex sh bz d y x s k j i` is
`reorderElem data sh isO4I4 bz d y x s k j i`, for in-range loop
coordinates. -/
theorem reorder_getElem [Zero α] (data : Nat → α) (sh : OHWIShape)
    (p : ConvParams) (d y x s k j i : Nat)
    (hd : d < divideRoundUp (divideRoundUp sh.o 4) p.block_size.z)
    (hy : y < sh.h) (hx : x < sh.w) (hs : s < divideRoundUp sh.i 4)
    (hk : k < p.block_size.z) (hj : j < 4) (hi : i < 4) :
    (ReorderWeightsForConv data sh p)[reorderFlatIndex sh p.block_size.z
        d y x s k j i]? =
      some (reorderElem data sh (decide (p.weight_layout = .O4I4))
        p.block_size.z d y x s k j i) := by
  set bz := p.block_size.z with hbz
  set isO4I4 : Bool := decide (p.weight_layout = .O4I4) with hiso
  set sd := divideRoundUp sh.i 4 with hsd
  -- remainder bounds, innermost outward
  have hb2 : (s * bz + k) * 4 + j < sd * bz * 4 :=
    mul_add_lt (mul_add_lt hs hk) hj
  have hb3 : ((s * bz + k) * 4 + j) * 4 + i < sd * bz * 4 * 4 :=
    mul_add_lt hb2 hi
  have hb4 : ((x * sd + s) * bz + k) * 4 + j < sh.w * sd * bz * 4 :=
    mul_add_lt (mul_add_lt (mul_add_lt hx hs) hk) hj
  have hb5 : (((x * sd + s) * bz + k) * 4 + j) * 4 + i <
      sh.w * sd * bz * 4 * 4 := mul_add_lt hb4 hi
  have hb6 : ((((y * sh.w + x) * sd + s) * bz + k) * 4 + j) * 4 + i <
      sh.h * sh.w * sd * bz * 4 * 4 :=
    mul_add_lt (mul_add_lt (mul_add_lt (mul_add_lt
      (mul_add_lt hy hx) hs) hk) hj) hi
  -- peel the seven loop levels one flatMap at a time
  have step1 : (ReorderWeightsForConv data sh p)[reorderFlatIndex sh bz
      d y x s k j i]? = (reorderRowD data sh isO4I4 bz d)[((((y * sh.w + x)
      * sd + s) * bz + k) * 4 + j) * 4 + i]? := by
    have harith : reorderFlatIndex sh bz d y x s k j i =
        d * (sh.h * (sh.w * (sd * (bz * 16)))) +
          (((((y * sh.w + x) * sd + s) * bz + k) * 4 + j) * 4 + i) := by
      unfold reorderFlatIndex
      rw [← hsd]; ring
    rw [harith]
    unfold ReorderWeightsForConv
    exact range_flatMap_getElem _ _ _ d _
      (fun d _ => reorderRowD_length data sh isO4I4 bz d) hd
      (by calc ((((y * sh.w + x) * sd + s) * bz + k) * 4 + j) * 4 + i <
            sh.h * sh.w * sd * bz * 4 * 4 := hb6
          _ = sh.h * (sh.w * (sd * (bz * 16))) := by ring)
  have step2 : (reorderRowD data sh isO4I4 bz d)[((((y * sh.w + x) * sd +
      s) * bz + k) * 4 + j) * 4 + i]? = (reorderRowY data sh isO4I4 bz d
      y)[(((x * sd + s) * bz + k) * 4 + j) * 4 + i]? := by
    have harith : ((((y * sh.w + x) * sd + s) * bz + k) * 4 + j) * 4 + i =
        y * (sh.w * (sd * (bz * 16))) +
          ((((x * sd + s) * bz + k) * 4 + j) * 4 + i) := by ring
    rw [harith]
    unfold reorderRowD
    exact range_flatMap_getElem _ _ _ y _
      (fun y _ => reorderRowY_length data sh isO4I4 bz d y) hy
      (by calc (((x * sd + s) * bz + k) * 4 + j) * 4 + i <
            sh.w * sd * bz * 4 * 4 := hb5
          _ = sh.w * (sd * (bz * 16)) := by ring)
  have step3 : (reorderRowY data sh isO4I4 bz d y)[(((x * sd + s) * bz +
      k) * 4 + j) * 4 + i]? = (reorderRowX data sh isO4I4 bz d y
      x)[((s * bz + k) * 4 + j) * 4 + i]? := by
    have harith : (((x * sd + s) * bz + k) * 4 + j) * 4 + i =
        x * (sd * (bz * 16)) + (((s * bz + k) * 4 + j) * 4 + i) := by ring
    rw [harith]
    unfold reorderRowY
    exact range_flatMap_getElem _ _ _ x _
      (fun x _ => reorderRowX_length data sh isO4I4 bz d y x) hx
      (by calc ((s * bz + k) * 4 + j) * 4 + i < sd * bz * 4 * 4 := hb3
          _ = sd * (bz * 16) := by ring)
  have step4 : (reorderRowX data sh isO4I4 bz d y x)[((s * bz + k) * 4 +
      j) * 4 + i]? = (reorderRowS data sh isO4I4 bz d y x
      s)[(k * 4 + j) * 4 + i]? := by
    have harith : ((s * bz + k) * 4 + j) * 4 + i =
        s * (bz * 16) + ((k * 4 + j) * 4 + i) := by ring
    rw [harith]
    unfold reorderRowX
    rw [← hsd]
    exact range_flatMap_getElem _ _ _ s _
      (fun s _ => reorderRowS_length data sh isO4I4 bz d y x s) hs
      (by calc (k * 4 + j) * 4 + i < bz * 4 * 4 :=
            mul_add_lt (mul_add_lt hk hj) hi
          _ = bz * 16 := by ring)
  have step5 : (reorderRowS data sh isO4I4 bz d y x s)[(k * 4 + j) * 4 +
      i]? = (reorderRowK data sh isO4I4 bz d y x s k)[j * 4 + i]? := by
    have harith : (k * 4 + j) * 4 + i = k * 16 + (j * 4 + i) := by ring
    rw [harith]
    unfold reorderRowS
    exact range_flatMap_getElem _ _ _ k _
      (fun k _ => reorderRowK_length data sh isO4I4 bz d y x s k) hk
      (by calc j * 4 + i < 4 * 4 := mul_add_lt hj hi
          _ = 16 := by norm_num)
  have step6 : (reorderRowK data sh isO4I4 bz d y x s k)[j * 4 + i]? =
      (reorderRowJ data sh isO4I4 bz d y x s k j)[i]? := by
    unfold reorderRowK
    exact range_flatMap_getElem _ _ _ j _
      (fun j _ => reorderRowJ_length data sh isO4I4 bz d y x s k j) hj hi
  have step7 : (reorderRowJ data sh isO4I4 bz d y x s k j)[i]? =
      some (reorderElem data sh isO4I4 bz d y x s k j i) := by
    unfold reorderRowJ
    rw [List.getElem?_map, List.getElem?_range hi]
    rfl
  rw [step1, step2, step3, step4, step5, step6, step7]

/-- `C4`: the reordered-weight output length is exactly
`kernel_w * kernel_h * ceil(out_groups / block.z) * block.z * 4 *
in_groups * 4` (channel-groups being `ceil(channels / 4)`), for every
weight tensor and parameter record. -/
theorem claim_C4 [Zero α] (data : Nat → α) (sh : OHWIShape)
    (p : ConvParams) :
    (ReorderWeightsForConv data sh p).length =
      sh.w * sh.h *
        (divideRoundUp (divideRoundUp sh.o 4) p.block_size.z *
          p.block_size.z) * 4 * divideRoundUp sh.i 4 * 4 := by
  unfold ReorderWeightsForConv
  rw [range_flatMap_length _ _
    (sh.h * (sh.w * (divideRoundUp sh.i 4 * (p.block_size.z * 16))))
    (fun d _ => reorderRowD_length data sh _ _ d)]
  ring

/-- `C5`: every element of the reordered output whose
(output-channel, input-channel) pair falls outside the tensor's true
channel extents is exactly zero. -/
theorem claim_C5 [Zero α] (data : Nat → α) (sh : OHWIShape)
    (p : ConvParams) (d y x s k j i : Nat)
    (hd : d < divideRoundUp (divideRoundUp sh.o 4) p.block_size.z)
    (hy : y < sh.h) (hx : x < sh.w) (hs : s < divideRoundUp sh.i 4)
    (hk : k < p.block_size.z) (hj : j < 4) (hi : i < 4)
    (hout : sh.i ≤ reorderSrcCh (decide (p.weight_layout = .O4I4)) s j i ∨
      sh.o ≤ reorderDstCh (decide (p.weight_layout = .O4I4))
        p.block_size.z d k j i) :
    (ReorderWeightsForConv data sh p)[reorderFlatIndex sh p.block_size.z
        d y x s k j i]? = some (0 : α) := by
  rw [reorder_getElem data sh p d y x s k j i hd hy hx hs hk hj hi]
  unfold reorderElem
  rw [if_pos hout]

/-- Concrete parameter record used by reordering witnesses. -/
def reorderWitnessParams : ConvParams :=
  { block_size := ⟨1, 1, 2⟩
    work_group_size := ⟨8, 4, 1⟩
    work_group_launch_order := ⟨2, 0, 1⟩
    src_depth_loop_size := 1
    need_src_loop := true
    need_dst_loop := true
    linear_wh := false
    linear_whs := false
    weights_upload_type := .globalMem
    weight_layout := .O4I4
    different_weights_for_height := false
    x_kernel_is_1 := true
    y_kernel_is_1 := true }

/-- Witness for `claim_C5` at a concrete input: shape `(o,h,w,i) =
(1,1,1,1)`, block `z = 2`, coordinates `(d,y,x,s,k,j,i) =
(0,0,0,0,1,0,0)` give a padded position holding `0`. -/
theorem claim_C5_witness :
    ((1 : Nat) ≤ reorderDstCh
        (decide (reorderWitnessParams.weight_layout =
          WeightsInnerBlockLayout.O4I4))
        reorderWitnessParams.block_size.z 0 1 0 0) ∧
    (ReorderWeightsForConv (fun n => (n : Int) + 1) ⟨1, 1, 1, 1⟩
        reorderWitnessParams)[reorderFlatIndex ⟨1, 1, 1, 1⟩
        reorderWitnessParams.block_size.z 0 0 0 0 1 0 0]? =
      some (0 : Int) :=
  ⟨by decide,
   claim_C5 (fun n => (n : Int) + 1) ⟨1, 1, 1, 1⟩ reorderWitnessParams
     0 0 0 0 1 0 0 (by decide) (by decide) (by decide) (by decide)
     (by decide) (by decide) (by decide) (Or.inr (by decide))⟩

/-- `C6`: applying the inverse of the reordering index map to the
non-padded region recovers every element of the original weight tensor
exactly. -/
theorem claim_C6 [Zero α] (data : Nat → α) (sh : OHWIShape)
    (p : ConvParams) (hbz : 0 < p.block_size.z) (oc y x ic : Nat)
    (ho : oc < sh.o) (hy : y < sh.h) (hx : x < sh.w) (hic : ic < sh.i) :
    (ReorderWeightsForConv data sh p)[reorderInverseIndex sh p
        oc y x ic]? = some (data (ohwiLinearIndex sh oc y x ic)) := by
  have hd : oc / 4 / p.block_size.z <
      divideRoundUp (divideRoundUp sh.o 4) p.block_size.z :=
    div_lt_divideRoundUp (div_lt_divideRoundUp ho (by norm_num)) hbz
  have hs : ic / 4 < divideRoundUp sh.i 4 :=
    div_lt_divideRoundUp hic (by norm_num)
  have hk : oc / 4 % p.block_size.z < p.block_size.z :=
    Nat.mod_lt _ hbz
  have hoc : (oc / 4 / p.block_size.z * p.block_size.z +
      oc / 4 % p.block_size.z) * 4 + oc % 4 = oc := by
    rw [Nat.div_add_mod']
    omega
  have hicr : ic / 4 * 4 + ic % 4 = ic := by omega
  cases hpl : p.weight_layout with
  | O4I4 =>
    simp only [reorderInverseIndex, hpl]
    norm_num
    rw [reorder_getElem data sh p _ y x _ _ _ _ hd hy hx hs hk
      (Nat.mod_lt _ (by norm_num)) (Nat.mod_lt _ (by norm_num))]
    simp only [reorderElem, reorderSrcCh, reorderDstCh, hpl]
    norm_num
    rw [hicr, hoc, if_neg (by omega)]
  | I4O4 =>
    have hne : ¬(WeightsInnerBlockLayout.I4O4 =
        WeightsInnerBlockLayout.O4I4) := by decide
    simp only [reorderInverseIndex, hpl]
    norm_num
    simp only [if_neg hne]
    rw [reorder_getElem data sh p _ y x _ _ _ _ hd hy hx hs hk
      (Nat.mod_lt _ (by norm_num)) (Nat.mod_lt _ (by norm_num))]
    simp only [reorderElem, reorderSrcCh, reorderDstCh, hpl]
    norm_num
    simp only [if_neg hne]
    rw [hicr, hoc, if_neg (by omega)]

/-- Witness for `claim_C6` at a concrete input: shape `(o,h,w,i) =
(2,1,1,2)`, block `z = 2`, original element `(dst_ch, y, x, src_ch) =
(1,0,0,1)` is recovered from the reordered buffer. -/
theorem claim_C6_witness :
    (0 < reorderWitnessParams.block_size.z) ∧
    (ReorderWeightsForConv (fun n => (n : Int) + 1) ⟨2, 1, 1, 2⟩
        reorderWitnessParams)[reorderInverseIndex ⟨2, 1, 1, 2⟩
        reorderWitnessParams 1 0 0 1]? =
      some ((fun n => (n : Int) + 1) (ohwiLinearIndex ⟨2, 1, 1, 2⟩
        1 0 0 1)) :=
  ⟨by decide,
   claim_C6 (fun n => (n : Int) + 1) ⟨2, 1, 1, 2⟩ reorderWitnessParams
     (by decide) 1 0 0 1 (by decide) (by decide) (by decide) (by decide)⟩

/-! ### Concrete scenario inputs -/

/-- The destination shape of the C1 end-to-end scenario:
output (1,32,32,16). -/
def dstShapeC1 : BHWC := ⟨1, 32, 32, 16⟩

/-- The convolution attributes of the C1 scenario: 3x3 kernel, stride 1,
input shape (1,32,32,8) (8 input channels, 16 output channels),
same-padding. -/
def attrC1 : Convolution2DAttributes :=
  { weights_shape := ⟨16, 3, 3, 8⟩
    strides := ⟨1, 1⟩
    dilations := ⟨1, 1⟩
    padding := ⟨⟨1, 1⟩, ⟨1, 1⟩⟩ }

/-- A Family-C (AMD/generic) device. -/
def amdGpuInfo : GpuInfo := ⟨.amd, ⟨false, false, 4⟩⟩

/-- `C1` counterexample: for the C1 scenario the claim as stated is
false — `GetDispatchSizes` permutes the per-axis work-group counts
(4,8,1) through `work_group_launch_order = (2,0,1)`, so the returned
group count is (1,4,8), not (4,8,1). -/
theorem claim_C1_counterexample :
    ¬((GetConvParams amdGpuInfo attrC1 .F32 dstShapeC1).block_size =
        ⟨1, 1, 4⟩ ∧
      (GetConvParams amdGpuInfo attrC1 .F32 dstShapeC1).work_group_size =
        ⟨8, 4, 1⟩ ∧
      (GetDispatchSizes (GetConvParams amdGpuInfo attrC1 .F32 dstShapeC1)
        dstShapeC1).2 = ⟨4, 8, 1⟩) := by
  decide

/-- `C1` (amended): for the C1 scenario on a Family-C device the
selector returns `block_size = (1,1,4)` and `work_group_size = (8,4,1)`,
and the dispatch group count equals the per-axis counts
(ceil(32/8), ceil(32/4), ceil(4/4)) = (4,8,1) remapped by the launch
order (2,0,1), i.e. (1,4,8). -/
theorem claim_C1 :
    (GetConvParams amdGpuInfo attrC1 .F32 dstShapeC1).block_size =
      ⟨1, 1, 4⟩ ∧
    (GetConvParams amdGpuInfo attrC1 .F32 dstShapeC1).work_group_size =
      ⟨8, 4, 1⟩ ∧
    (GetDispatchSizes (GetConvParams amdGpuInfo attrC1 .F32 dstShapeC1)
      dstShapeC1).1 = ⟨8, 4, 1⟩ ∧
    (GetDispatchSizes (GetConvParams amdGpuInfo attrC1 .F32 dstShapeC1)
      dstShapeC1).2 = ⟨1, 4, 8⟩ := by
  decide

/-- `C3` counterexample: at precision F32 the record for an unrecognized
family differs from the Family-C (AMD) record — the AMD selector picks
`weight_layout = I4O4` for non-mixed precision while the default branch
always uses `O4I4`. -/
theorem claim_C3_counterexample :
    GetConvParams ⟨.other, ⟨false, false, 4⟩⟩ attrC1 .F32 dstShapeC1 ≠
      GetConvParamsForAMD attrC1 .F32 dstShapeC1 := by
  decide

/-- `C3` (amended): for every attribute set, destination shape,
precision and Apple-info payload, the record produced for an
unrecognized family equals the Family-C (AMD) record except that its
weight inner-layout is always output-major (`O4I4`) regardless of
precision (so the records coincide exactly when precision is mixed
F32/F16). -/
theorem claim_C3 (ai : AppleInfo) (attr : Convolution2DAttributes)
    (prec : CalculationsPrecision) (dst : BHWC) :
    GetConvParams ⟨.other, ai⟩ attr prec dst =
      { GetConvParamsForAMD attr prec dst with weight_layout := .O4I4 } :=
  rfl

/-! ### Lemmas about the shared Apple selector tail -/

theorem finalize_block (ss ds : Nat) (p : ConvParams) :
    (finalizeAppleConvParams ss ds p).block_size = p.block_size := by
  simp only [finalizeAppleConvParams]
  split_ifs <;> rfl

theorem finalize_wgs (ss ds : Nat) (p : ConvParams) :
    (finalizeAppleConvParams ss ds p).work_group_size =
      p.work_group_size := by
  simp only [finalizeAppleConvParams]
  split_ifs <;> rfl

theorem finalize_lo (ss ds : Nat) (p : ConvParams) :
    (finalizeAppleConvParams ss ds p).work_group_launch_order =
      p.work_group_launch_order := by
  simp only [finalizeAppleConvParams]
  split_ifs <;> rfl

theorem finalize_sdls (ss ds : Nat) (p : ConvParams) :
    (finalizeAppleConvParams ss ds p).src_depth_loop_size =
      p.src_depth_loop_size := by
  simp only [finalizeAppleConvParams]
  split_ifs <;> rfl

theorem finalize_wh (ss ds : Nat) (p : ConvParams) :
    (finalizeAppleConvParams ss ds p).linear_wh = p.linear_wh := by
  simp only [finalizeAppleConvParams]
  split_ifs <;> rfl

theorem finalize_whs (ss ds : Nat) (p : ConvParams) :
    (finalizeAppleConvParams ss ds p).linear_whs = p.linear_whs := by
  simp only [finalizeAppleConvParams]
  split_ifs <;> rfl

theorem finalize_xk (ss ds : Nat) (p : ConvParams) :
    (finalizeAppleConvParams ss ds p).x_kernel_is_1 = p.x_kernel_is_1 := by
  simp only [finalizeAppleConvParams]
  split_ifs <;> rfl

theorem finalize_yk (ss ds : Nat) (p : ConvParams) :
    (finalizeAppleConvParams ss ds p).y_kernel_is_1 = p.y_kernel_is_1 := by
  simp only [finalizeAppleConvParams]
  split_ifs <;> rfl

/-- When the static unrolls cover the full ranges and both kernel axes
are unit, the shared Apple tail resolves the upload strategy to constant
memory. -/
theorem finalize_sets_constant (ss ds : Nat) (p : ConvParams)
    (h1 : p.src_depth_loop_size = ss) (h2 : p.block_size.z = ds)
    (hx : p.x_kernel_is_1 = true) (hy : p.y_kernel_is_1 = true) :
    (finalizeAppleConvParams ss ds p).weights_upload_type =
      .constantMem := by
  unfold finalizeAppleConvParams UseFiltersConstants
  simp [h1, h2, hx, hy]

/-- The shared Apple tail either resolves to constant memory (exactly
when the `use_filters_constants` condition holds of the final record) or
keeps the upload strategy of its input. -/
theorem finalize_upload (ss ds : Nat) (p : ConvParams) :
    (finalizeAppleConvParams ss ds p).weights_upload_type =
      (if UseFiltersConstants (finalizeAppleConvParams ss ds p) then
        WeightsUploadType.constantMem
       else p.weights_upload_type) := by
  have key : ∀ q : ConvParams,
      q.weights_upload_type = p.weights_upload_type →
      ((if UseFiltersConstants q then
          { q with weights_upload_type := WeightsUploadType.constantMem }
        else q) : ConvParams).weights_upload_type =
        (if UseFiltersConstants ((if UseFiltersConstants q then
            { q with weights_upload_type := WeightsUploadType.constantMem }
          else q) : ConvParams) then WeightsUploadType.constantMem
         else p.weights_upload_type) := by
    intro q hq
    have hsame : UseFiltersConstants
        { q with weights_upload_type := WeightsUploadType.constantMem } =
        UseFiltersConstants q := rfl
    by_cases h : UseFiltersConstants q = true
    · rw [if_pos h, if_pos (show UseFiltersConstants
        { q with weights_upload_type := WeightsUploadType.constantMem } =
          true from by rw [hsame]; exact h)]
    · rw [if_neg h, if_neg (show ¬UseFiltersConstants q = true from h)]
      exact hq
  exact key
    (if (if p.src_depth_loop_size = ss then
        { p with need_src_loop := false } else p).block_size.z = ds then
      { (if p.src_depth_loop_size = ss then
          { p with need_src_loop := false } else p) with
          need_dst_loop := false }
     else (if p.src_depth_loop_size = ss then
        { p with need_src_loop := false } else p))
    (by split_ifs <;> rfl)

theorem a7a8Core_xk (ai : AppleInfo) (attr : Convolution2DAttributes)
    (dst : BHWC) :
    (a7a8Core ai attr dst).x_kernel_is_1 = IsKernelXIs1 attr := rfl

theorem a7a8Core_yk (ai : AppleInfo) (attr : Convolution2DAttributes)
    (dst : BHWC) :
    (a7a8Core ai attr dst).y_kernel_is_1 = IsKernelYIs1 attr := rfl

theorem a9Core_xk (ai : AppleInfo) (attr : Convolution2DAttributes)
    (dst : BHWC) :
    (a9Core ai attr dst).x_kernel_is_1 = IsKernelXIs1 attr := rfl

theorem a9Core_yk (ai : AppleInfo) (attr : Convolution2DAttributes)
    (dst : BHWC) :
    (a9Core ai attr dst).y_kernel_is_1 = IsKernelYIs1 attr := rfl

/-- Before the shared tail, the A7/A8 selector picks global memory
exactly when it falls back to full linearization, and local-memory
staging otherwise. -/
theorem a7a8Core_upload (ai : AppleInfo) (attr : Convolution2DAttributes)
    (dst : BHWC) :
    (a7a8Core ai attr dst).weights_upload_type =
      (if (a7a8Core ai attr dst).linear_whs then WeightsUploadType.globalMem
       else WeightsUploadType.localMemByThreads) := rfl

/-! ### Claims C2 and C9 -/

/-- The convolution attributes of the C2 counterexample: 1x1 kernel,
stride 1, dilation 1, zero padding, 8 input channels (2 channel
groups), 16 output channels (4 channel groups). -/
def attrC2 : Convolution2DAttributes :=
  { weights_shape := ⟨16, 1, 1, 8⟩
    strides := ⟨1, 1⟩
    dilations := ⟨1, 1⟩
    padding := ⟨⟨0, 0⟩, ⟨0, 0⟩⟩ }

/-- The destination shape of the C2 counterexample. -/
def dstShapeC2 : BHWC := ⟨1, 1, 1, 16⟩

/-- A Family-B (Intel) device. -/
def intelGpuInfo : GpuInfo := ⟨.intel, ⟨false, false, 4⟩⟩

/-- `C2` counterexample: on an Intel (Family-B) device a 1x1 unit-kernel
convolution whose destination channel-group count equals the selected
`block_size.z` (4 = 4) and whose input channel-group count equals the
selected `src_depth_loop_size` (2 = 2) still resolves to SIMD8
broadcast, not constant memory — the Intel selector (and likewise the
AMD and default selectors) has no constant-memory override. -/
theorem claim_C2_counterexample :
    (IsKernelXIs1 attrC2 = true ∧ IsKernelYIs1 attrC2 = true ∧
      (GetConvParams intelGpuInfo attrC2 .F32 dstShapeC2).block_size.z =
        divideRoundUp dstShapeC2.c 4 ∧
      (GetConvParams intelGpuInfo attrC2 .F32
        dstShapeC2).src_depth_loop_size =
        divideRoundUp attrC2.weights_shape.i 4) ∧
    (GetConvParams intelGpuInfo attrC2 .F32
      dstShapeC2).weights_upload_type ≠ WeightsUploadType.constantMem := by
  decide

/-- `C2` (amended): on the Apple device families (both the
local-memory-preferred A7/A8 path and the A9-and-higher path), a 1x1
kernel with stride 1, dilation 1 and zero padding whose destination
channel-group count equals the selected `block_size.z` and whose input
channel-group count equals the selected `src_depth_loop_size` resolves
the upload strategy to constant memory. -/
theorem claim_C2 (ai : AppleInfo) (attr : Convolution2DAttributes)
    (prec : CalculationsPrecision) (dst : BHWC)
    (hkx : IsKernelXIs1 attr = true) (hky : IsKernelYIs1 attr = true)
    (hz : (GetConvParams ⟨.apple, ai⟩ attr prec dst).block_size.z =
      divideRoundUp dst.c 4)
    (hs : (GetConvParams ⟨.apple, ai⟩ attr prec dst).src_depth_loop_size =
      divideRoundUp attr.weights_shape.i 4) :
    (GetConvParams ⟨.apple, ai⟩ attr prec dst).weights_upload_type =
      WeightsUploadType.constantMem := by
  rcases ai with ⟨lm, bio, cu⟩
  cases lm with
  | false =>
    rw [show GetConvParams ⟨.apple, ⟨false, bio, cu⟩⟩ attr prec dst =
      GetConvParamsForA9AndHigher ⟨false, bio, cu⟩ attr dst from rfl]
      at hz hs ⊢
    unfold GetConvParamsForA9AndHigher at hz hs ⊢
    rw [finalize_block] at hz
    rw [finalize_sdls] at hs
    exact finalize_sets_constant _ _ _ hs hz
      (by rw [a9Core_xk]; exact hkx) (by rw [a9Core_yk]; exact hky)
  | true =>
    rw [show GetConvParams ⟨.apple, ⟨true, bio, cu⟩⟩ attr prec dst =
      GetConvParamsForA7A8 ⟨true, bio, cu⟩ attr dst from rfl]
      at hz hs ⊢
    unfold GetConvParamsForA7A8 at hz hs ⊢
    rw [finalize_block] at hz
    rw [finalize_sdls] at hs
    exact finalize_sets_constant _ _ _ hs hz
      (by rw [a7a8Core_xk]; exact hkx) (by rw [a7a8Core_yk]; exact hky)

/-- The convolution attributes of the C2/C9 Apple scenarios: 1x1 unit
kernel, 4 input channels, 4 output channels. -/
def attrC9 : Convolution2DAttributes :=
  { weights_shape := ⟨4, 1, 1, 4⟩
    strides := ⟨1, 1⟩
    dilations := ⟨1, 1⟩
    padding := ⟨⟨0, 0⟩, ⟨0, 0⟩⟩ }

/-- The destination shape of the C2/C9 Apple scenarios. -/
def dstShapeC9 : BHWC := ⟨1, 1, 1, 4⟩

/-- A Family-A entry-tier (local-memory-preferred) Apple device. -/
def appleEntryGpuInfo : GpuInfo := ⟨.apple, ⟨true, false, 4⟩⟩

/-- Witness for `claim_C2` at a concrete input: the A7/A8 scenario with
a 1x1 kernel, one input channel group with unit loop size, and one
output channel group with `block_size.z = 1` resolves to constant
memory. -/
theorem claim_C2_witness :
    (IsKernelXIs1 attrC9 = true ∧ IsKernelYIs1 attrC9 = true ∧
      (GetConvParams appleEntryGpuInfo attrC9 .F32
        dstShapeC9).block_size.z = divideRoundUp dstShapeC9.c 4 ∧
      (GetConvParams appleEntryGpuInfo attrC9 .F32
        dstShapeC9).src_depth_loop_size =
        divideRoundUp attrC9.weights_shape.i 4) ∧
    (GetConvParams appleEntryGpuInfo attrC9 .F32
      dstShapeC9).weights_upload_type = WeightsUploadType.constantMem :=
  ⟨⟨by decide, by decide, by decide, by decide⟩,
   claim_C2 ⟨true, false, 4⟩ attrC9 .F32 dstShapeC9 (by decide)
     (by decide) (by decide) (by decide)⟩

/-- `C9` counterexample: on a Family-A entry-tier device (local memory
preferred over global) a 1x1 unit-kernel convolution with one input and
one output channel group resolves to constant memory, not local-memory
staging. -/
theorem claim_C9_counterexample :
    appleEntryGpuInfo.apple_info.localMemoryPreferredOverGlobal = true ∧
    (GetConvParams appleEntryGpuInfo attrC9 .F32
      dstShapeC9).weights_upload_type ≠
      WeightsUploadType.localMemByThreads := by
  decide

/-- `C9` (amended): the Family-A entry-tier selector resolves the upload
strategy to local-memory staging unless the full-linearization fallback
triggers (then global memory) or the constant-memory specialization
condition holds of the final record (then constant memory). -/
theorem claim_C9 (ai : AppleInfo) (attr : Convolution2DAttributes)
    (dst : BHWC) :
    (GetConvParamsForA7A8 ai attr dst).weights_upload_type =
      (if UseFiltersConstants (GetConvParamsForA7A8 ai attr dst) then
        WeightsUploadType.constantMem
       else if (GetConvParamsForA7A8 ai attr dst).linear_whs then
        WeightsUploadType.globalMem
       else WeightsUploadType.localMemByThreads) := by
  unfold GetConvParamsForA7A8
  rw [finalize_upload, finalize_whs, a7a8Core_upload]

/-! ### Claim C7: record invariants -/

/-- `launch_order` is a valid permutation of {0,1,2}. -/
def LaunchOrderPermutation (v : Int3) : Prop :=
  v.x < 3 ∧ v.y < 3 ∧ v.z < 3 ∧ v.x ≠ v.y ∧ v.x ≠ v.z ∧ v.y ≠ v.z

/-- The spec's record invariants: positive block sizes, a valid launch
order, mutually exclusive linearization flags, and the constant-memory
precondition. -/
def ConvParamsInvariants (p : ConvParams) : Prop :=
  (1 ≤ p.block_size.x ∧ 1 ≤ p.block_size.y ∧ 1 ≤ p.block_size.z) ∧
  LaunchOrderPermutation p.work_group_launch_order ∧
  ¬(p.linear_wh = true ∧ p.linear_whs = true) ∧
  (p.weights_upload_type = WeightsUploadType.constantMem →
    p.need_src_loop = false ∧ p.need_dst_loop = false ∧
    p.x_kernel_is_1 = true ∧ p.y_kernel_is_1 = true)

theorem bool_and_not_contra {a b : Bool} (h1 : (a && !b) = true)
    (h2 : b = true) : False := by
  subst h2
  simp at h1

theorem a7a8BlockZ_pos (blk ds : Nat) : 1 ≤ a7a8BlockZ blk ds := by
  unfold a7a8BlockZ
  split_ifs <;> norm_num

theorem a7a8BlockXY_pos (blk w h : Nat) :
    1 ≤ (a7a8BlockXY blk w h).1 ∧ 1 ≤ (a7a8BlockXY blk w h).2 := by
  unfold a7a8BlockXY
  split_ifs <;> norm_num

theorem a9BlockZ_pos (blk ds : Nat) : 1 ≤ a9BlockZ blk ds := by
  simp only [a9BlockZ]
  split_ifs <;> norm_num

theorem a9BlockXY_pos (blk : Nat) (bionic : Bool) (w h : Nat) :
    1 ≤ (a9BlockXY blk bionic w h).1 ∧
      1 ≤ (a9BlockXY blk bionic w h).2 := by
  unfold a9BlockXY
  split_ifs <;> norm_num

/-- The upload strategy of the A9 core is always global memory. -/
theorem a9Core_upload (ai : AppleInfo) (attr : Convolution2DAttributes)
    (dst : BHWC) :
    (a9Core ai attr dst).weights_upload_type =
      WeightsUploadType.globalMem := rfl

theorem a7a8Core_upload_ne (ai : AppleInfo)
    (attr : Convolution2DAttributes) (dst : BHWC) :
    (a7a8Core ai attr dst).weights_upload_type ≠
      WeightsUploadType.constantMem := by
  rw [a7a8Core_upload]
  split_ifs <;> simp

theorem a9Core_upload_ne (ai : AppleInfo)
    (attr : Convolution2DAttributes) (dst : BHWC) :
    (a9Core ai attr dst).weights_upload_type ≠
      WeightsUploadType.constantMem := by
  rw [a9Core_upload]
  simp

/-- The shared Apple tail preserves the invariants of a non-constant
core record. -/
theorem finalize_invariants (ss ds : Nat) (p : ConvParams)
    (hp : ConvParamsInvariants p)
    (hup : p.weights_upload_type ≠ WeightsUploadType.constantMem) :
    ConvParamsInvariants (finalizeAppleConvParams ss ds p) := by
  obtain ⟨hb, hl, hlin, _⟩ := hp
  refine ⟨?_, ?_, ?_, ?_⟩
  · rw [finalize_block]; exact hb
  · rw [finalize_lo]; exact hl
  · rw [finalize_wh, finalize_whs]; exact hlin
  · intro hc
    have hu := finalize_upload ss ds p
    rw [hc] at hu
    by_cases h : UseFiltersConstants (finalizeAppleConvParams ss ds p) =
      true
    · have h4 := h
      unfold UseFiltersConstants at h4
      simp only [Bool.and_eq_true, Bool.not_eq_true'] at h4
      exact ⟨h4.1.1.2, h4.1.1.1, h4.1.2, h4.2⟩
    · rw [if_neg h] at hu
      exact absurd hu.symm hup

theorem a7a8Core_invariants (ai : AppleInfo)
    (attr : Convolution2DAttributes) (dst : BHWC) :
    ConvParamsInvariants (a7a8Core ai attr dst) := by
  refine ⟨⟨?_, ?_, ?_⟩, ?_, ?_, ?_⟩
  · exact (a7a8BlockXY_pos _ _ _).1
  · exact (a7a8BlockXY_pos _ _ _).2
  · exact a7a8BlockZ_pos _ _
  · exact ⟨(by norm_num : (0:Nat) < 3), (by norm_num : (1:Nat) < 3),
      (by norm_num : (2:Nat) < 3), (by norm_num : (0:Nat) ≠ 1),
      (by norm_num : (0:Nat) ≠ 2), (by norm_num : (1:Nat) ≠ 2)⟩
  · rintro ⟨h1, h2⟩
    simp only [a7a8Core] at h1 h2
    exact bool_and_not_contra h1 h2
  · intro hc
    exact absurd hc (a7a8Core_upload_ne ai attr dst)

theorem a9Core_invariants (ai : AppleInfo)
    (attr : Convolution2DAttributes) (dst : BHWC) :
    ConvParamsInvariants (a9Core ai attr dst) := by
  refine ⟨⟨?_, ?_, ?_⟩, ?_, ?_, ?_⟩
  · exact (a9BlockXY_pos _ _ _ _).1
  · exact (a9BlockXY_pos _ _ _ _).2
  · exact a9BlockZ_pos _ _
  · simp only [a9Core, LaunchOrderPermutation]
    split_ifs <;> norm_num
  · rintro ⟨h1, h2⟩
    simp only [a9Core] at h1 h2
    exact bool_and_not_contra h1 h2
  · intro hc
    exact absurd hc (a9Core_upload_ne ai attr dst)

theorem intel_invariants (attr : Convolution2DAttributes)
    (prec : CalculationsPrecision) (dst : BHWC) :
    ConvParamsInvariants (GetConvParamsForIntel attr prec dst) := by
  simp only [ConvParamsInvariants, LaunchOrderPermutation,
    GetConvParamsForIntel]
  split_ifs <;> simp_all

theorem amd_invariants (attr : Convolution2DAttributes)
    (prec : CalculationsPrecision) (dst : BHWC) :
    ConvParamsInvariants (GetConvParamsForAMD attr prec dst) := by
  simp only [ConvParamsInvariants, LaunchOrderPermutation,
    GetConvParamsForAMD]
  refine ⟨by norm_num, by norm_num, by simp, by simp⟩

/-- `C7`: every record produced by the family dispatcher satisfies the
spec invariants: positive block sizes, a {0,1,2}-permutation launch
order, at most one linearization flag, and the constant-memory
precondition (no loops needed, both kernel axes unit). -/
theorem claim_C7 (gpu : GpuInfo) (attr : Convolution2DAttributes)
    (prec : CalculationsPrecision) (dst : BHWC) :
    ConvParamsInvariants (GetConvParams gpu attr prec dst) := by
  rcases gpu with ⟨v, ai⟩
  cases v with
  | apple =>
    rcases ai with ⟨lm, bio, cu⟩
    cases lm with
    | false =>
      rw [show GetConvParams ⟨.apple, ⟨false, bio, cu⟩⟩ attr prec dst =
        GetConvParamsForA9AndHigher ⟨false, bio, cu⟩ attr dst from rfl]
      unfold GetConvParamsForA9AndHigher
      exact finalize_invariants _ _ _ (a9Core_invariants _ attr dst)
        (a9Core_upload_ne _ attr dst)
    | true =>
      rw [show GetConvParams ⟨.apple, ⟨true, bio, cu⟩⟩ attr prec dst =
        GetConvParamsForA7A8 ⟨true, bio, cu⟩ attr dst from rfl]
      unfold GetConvParamsForA7A8
      exact finalize_invariants _ _ _ (a7a8Core_invariants _ attr dst)
        (a7a8Core_upload_ne _ attr dst)
  | intel => exact intel_invariants attr prec dst
  | amd => exact amd_invariants attr prec dst
  | other =>
    simp only [ConvParamsInvariants, LaunchOrderPermutation,
      GetConvParams]
    refine ⟨by norm_num, by norm_num, by simp, by simp⟩

/-! ### Claim C8: bounds-check placement in the generated text -/

theorem mem_ite_nil {α : Type _} (a : α) (c : Prop) [Decidable c]
    (l : List α) : (a ∈ (if c then l else [])) ↔ c ∧ a ∈ l := by
  split_ifs with h <;> simp [h]

theorem checks_notin_ids (lo bs : Int3) (wh whs : Bool) :
    Frag.earlyXYCheck ∉ GlobalIdsGen lo bs wh whs ∧
    Frag.lateXYCheck ∉ GlobalIdsGen lo bs wh whs := by
  unfold GlobalIdsGen
  split_ifs <;> simp

theorem checks_notin_simdParam (p : ConvParams) :
    Frag.earlyXYCheck ∉ simdParamPart p ∧
    Frag.lateXYCheck ∉ simdParamPart p := by
  unfold simdParamPart
  split_ifs <;> simp

theorem checks_notin_accum (p : ConvParams) :
    Frag.earlyXYCheck ∉ accumSection p ∧
    Frag.lateXYCheck ∉ accumSection p := by
  simp [accumSection, List.mem_flatMap, List.mem_map]

theorem checks_notin_tmp (p : ConvParams) :
    Frag.earlyXYCheck ∉ tmpSection p ∧
    Frag.lateXYCheck ∉ tmpSection p := by
  unfold tmpSection
  split_ifs <;> simp

theorem checks_notin_srcBase (p : ConvParams) :
    Frag.earlyXYCheck ∉ srcBaseSection p ∧
    Frag.lateXYCheck ∉ srcBaseSection p := by
  unfold srcBaseSection
  split_ifs <;> simp [List.mem_map]

theorem checks_notin_localDecl (p : ConvParams) :
    Frag.earlyXYCheck ∉ localDeclPart p ∧
    Frag.lateXYCheck ∉ localDeclPart p := by
  unfold localDeclPart
  split_ifs <;> simp

theorem checks_notin_coordY (p : ConvParams) :
    Frag.earlyXYCheck ∉ coordYSection p ∧
    Frag.lateXYCheck ∉ coordYSection p := by
  unfold coordYSection
  split_ifs <;> simp [List.mem_map]

theorem checks_notin_coordX (p : ConvParams) :
    Frag.earlyXYCheck ∉ coordXSection p ∧
    Frag.lateXYCheck ∉ coordXSection p := by
  unfold coordXSection
  split_ifs <;> simp [List.mem_map]

theorem checks_notin_mask (p : ConvParams) :
    Frag.earlyXYCheck ∉ maskSection p ∧
    Frag.lateXYCheck ∉ maskSection p := by
  simp [maskSection, List.mem_flatMap, mem_ite_nil]

theorem checks_notin_srcLoc (p : ConvParams) :
    Frag.earlyXYCheck ∉ srcLocSection p ∧
    Frag.lateXYCheck ∉ srcLocSection p := by
  simp [srcLocSection, List.mem_flatMap, List.mem_map]

theorem checks_notin_stage (p : ConvParams) :
    Frag.earlyXYCheck ∉ stageSection p ∧
    Frag.lateXYCheck ∉ stageSection p := by
  unfold stageSection GenerateUploadByThreads
  split_ifs <;> simp [List.mem_append, List.mem_map, mem_ite_nil]

theorem checks_notin_body (p : ConvParams) :
    Frag.earlyXYCheck ∉ bodySection p ∧
    Frag.lateXYCheck ∉ bodySection p := by
  simp [bodySection, declareSrcFrags, readSrcFrags, convCoreFrags,
    List.mem_flatMap, List.mem_map, List.mem_append]

theorem checks_notin_addr (p : ConvParams) :
    Frag.earlyXYCheck ∉ addrSection p ∧
    Frag.lateXYCheck ∉ addrSection p := by
  simp [addrSection, List.mem_flatMap, List.mem_map]

theorem checks_notin_bias (p : ConvParams) :
    Frag.earlyXYCheck ∉ biasSection p ∧
    Frag.lateXYCheck ∉ biasSection p := by
  simp [biasSection, List.mem_flatMap, List.mem_map, List.mem_append,
    mem_ite_nil]

theorem checks_notin_store (p : ConvParams) :
    Frag.earlyXYCheck ∉ storeSection p ∧
    Frag.lateXYCheck ∉ storeSection p := by
  simp [storeSection, List.mem_flatMap, List.mem_map, List.mem_cons]

/-- The generated text contains the early width/height exit exactly when
no deferred check is needed and the grid is not fully linearized. -/
theorem genConv_early_iff (p : ConvParams) :
    Frag.earlyXYCheck ∈ GenerateConvolution p ↔
      (lateXYCheckNeeded p = false ∧ p.linear_whs = false) := by
  unfold GenerateConvolution
  simp [List.mem_append, mem_ite_nil,
    (checks_notin_ids p.work_group_launch_order p.block_size p.linear_wh
      p.linear_whs).1,
    (checks_notin_simdParam p).1, (checks_notin_accum p).1,
    (checks_notin_tmp p).1, (checks_notin_srcBase p).1,
    (checks_notin_localDecl p).1, (checks_notin_coordY p).1,
    (checks_notin_coordX p).1, (checks_notin_mask p).1,
    (checks_notin_srcLoc p).1, (checks_notin_stage p).1,
    (checks_notin_body p).1, (checks_notin_addr p).1,
    (checks_notin_bias p).1, (checks_notin_store p).1,
    earlyPart, latePart]

/-- The generated text contains the deferred (post-loop) width/height
check exactly when a deferred check is needed and the grid is not fully
linearized. -/
theorem genConv_late_iff (p : ConvParams) :
    Frag.lateXYCheck ∈ GenerateConvolution p ↔
      (lateXYCheckNeeded p = true ∧ p.linear_whs = false) := by
  unfold GenerateConvolution
  simp [List.mem_append, mem_ite_nil,
    (checks_notin_ids p.work_group_launch_order p.block_size p.linear_wh
      p.linear_whs).2,
    (checks_notin_simdParam p).2, (checks_notin_accum p).2,
    (checks_notin_tmp p).2, (checks_notin_srcBase p).2,
    (checks_notin_localDecl p).2, (checks_notin_coordY p).2,
    (checks_notin_coordX p).2, (checks_notin_mask p).2,
    (checks_notin_srcLoc p).2, (checks_notin_stage p).2,
    (checks_notin_body p).2, (checks_notin_addr p).2,
    (checks_notin_bias p).2, (checks_notin_store p).2,
    earlyPart, latePart]

/-- A valid record (it satisfies every §3 invariant) that is fully
linearized with plain global-memory upload — the shape the Apple
selectors produce when the full-linearization fallback triggers. -/
def paramsC8 : ConvParams :=
  { block_size := ⟨1, 1, 4⟩
    work_group_size := ⟨32, 1, 1⟩
    work_group_launch_order := ⟨0, 1, 2⟩
    src_depth_loop_size := 1
    need_src_loop := true
    need_dst_loop := true
    linear_wh := false
    linear_whs := true
    weights_upload_type := .globalMem
    weight_layout := .O4I4
    different_weights_for_height := false
    x_kernel_is_1 := true
    y_kernel_is_1 := true }

/-- `C8` counterexample: for a valid fully-linearized record with
global-memory upload, no deferred check is needed, yet the generated
text contains no early width/height exit either (under full
linearization the decoded X/Y are always in range, so the generator
emits neither check) — the claimed "if and only if" fails. -/
theorem claim_C8_counterexample :
    ConvParamsInvariants paramsC8 ∧
    ¬(Frag.earlyXYCheck ∈ GenerateConvolution paramsC8 ↔
        lateXYCheckNeeded paramsC8 = false) := by
  constructor
  · unfold ConvParamsInvariants LaunchOrderPermutation
    decide
  · rw [genConv_early_iff]
    decide

/-- `C8` (amended): the generated text contains the early width/height
exit iff no deferred check is needed AND the grid is not fully
linearized, and it contains the deferred post-loop check iff the upload
strategy is local-memory-staged or SIMD-broadcast AND the grid is not
fully linearized. -/
theorem claim_C8 (p : ConvParams) :
    (Frag.earlyXYCheck ∈ GenerateConvolution p ↔
      (lateXYCheckNeeded p = false ∧ p.linear_whs = false)) ∧
    (Frag.lateXYCheck ∈ GenerateConvolution p ↔
      (lateXYCheckNeeded p = true ∧ p.linear_whs = false)) :=
  ⟨genConv_early_iff p, genConv_late_iff p⟩

/-- `C10`: the Winograd-specialized path supplies an all-zero bias
buffer of exactly `ceil(out_groups / block.z) * block.z * 4` elements,
for every device and attribute set, so the bias-addition step of the
generated kernel adds zero to every accumulator. -/
theorem claim_C10 (gpu : GpuInfo) (attr : Convolution2DAttributes) :
    (WinoDummyBiases gpu attr).length =
      divideRoundUp (divideRoundUp attr.weights_shape.o 4)
        (WinoConvParams gpu).block_size.z *
        (WinoConvParams gpu).block_size.z * 4 ∧
    (∀ q ∈ WinoDummyBiases gpu attr, q = 0) := by
  refine ⟨?_, ?_⟩
  · simp [WinoDummyBiases, alignByN, Nat.mul_assoc]
  · intro q hq
    unfold WinoDummyBiases at hq
    exact List.eq_of_mem_replicate hq

end ConvMetal
